import Mathlib

/-!
A verification development for the protocol-compliance evaluation engine
(`factory/BAKERY/protocol-compoliance/lib.rs`).

The Rust code is shallowly embedded: pure functions become Lean functions
over `String`, `List` and a small JSON value type mirroring
`serde_json::Value`; the effectful parts (file system, HTTP transport) are
made explicit as inputs (`Env`, `Except`-valued read results, a transport
oracle indexed by call number), and the sequence of endpoint calls is
returned as an explicit trace so that call-counting properties can be
stated.  Rust `f64` arithmetic in the score reporter is modelled by exact
rational arithmetic together with a finiteness flag (the only non-finite
value the code can produce is `0.0/0.0` on an empty batch).
-/

namespace ProtocolCompliance

/-- JSON values, mirroring `serde_json::Value`.  Numbers are modelled as
integers; no property considered here depends on numeric payloads. -/
inductive Json where
  | null
  | bool (b : Bool)
  | num (n : Int)
  | str (s : String)
  | arr (elems : List Json)
  | obj (fields : List (String × Json))

/-- `v[key]` on a `serde_json::Value`: field lookup that yields `Null`
when the value is not an object or the key is absent. -/
def Json.getField : Json → String → Json
  | .obj fields, key =>
      match fields.find? (fun f => f.1 == key) with
      | some f => f.2
      | none => .null
  | _, _ => .null

/-- `Value::as_str`. -/
def Json.asStr : Json → Option String
  | .str s => some s
  | _ => none

/-- `Value::as_array`. -/
def Json.asArray : Json → Option (List Json)
  | .arr elems => some elems
  | _ => none

/-- `struct ComplianceTest` from the source. -/
structure ComplianceTest where
  name : String
  prompt : String
  forbidden : List String
  expected_start : String
deriving DecidableEq

/-- `struct TestResult` from the source. -/
structure TestResult where
  passed : Bool
  violations : List String
  response : String
deriving DecidableEq

/-- Rust `str::starts_with` with a string pattern: character-sequence
prefix test (case-sensitive, literal). -/
def strStartsWith (s pat : String) : Bool :=
  List.isPrefixOf pat.toList s.toList

/-- Rust `str::to_lowercase`, modelled as per-character lowering. -/
def strToLowercase (s : String) : String :=
  String.mk (s.toList.map Char.toLower)

/-- Substring search on character lists: the needle occurs at some
position of the haystack. -/
def listContainsSub (needle : List Char) : List Char → Bool
  | [] => needle.isEmpty
  | c :: t => List.isPrefixOf needle (c :: t) || listContainsSub needle t

/-- Rust `str::contains` with a string pattern: substring containment. -/
def strContainsSub (hay needle : String) : Bool :=
  listContainsSub needle.toList hay.toList

/-- The ASCII apostrophe, used by the violation format string. -/
def quoteChar : Char := Char.ofNat 39

/-- `format!("Contains forbidden behavior: '{}'", forbidden)`. -/
def forbiddenViolationMsg (forbidden : String) : String :=
  "Contains forbidden behavior: " ++ String.singleton quoteChar
    ++ forbidden ++ String.singleton quoteChar

/-- `evaluate_response` from the source: the prefix check pushes a
violation and clears `passed`; then one pass over `forbidden` pushes one
violation per matching entry.  The loop is embedded as a `foldl` over the
`(violations, passed)` pair, mirroring the two mutable locals. -/
def evaluate_response (test : ComplianceTest) (response : String) : TestResult :=
  let afterStart : List String × Bool :=
    if !(strStartsWith response test.expected_start) then
      (["Missing mandatory response format"], false)
    else
      ([], true)
  let response_lower := strToLowercase response
  let final := test.forbidden.foldl
    (fun (acc : List String × Bool) fb =>
      if strContainsSub response_lower (strToLowercase fb) then
        (acc.1 ++ [forbiddenViolationMsg fb], false)
      else acc)
    afterStart
  { passed := final.2, violations := final.1, response := response }

/-- The fixed sentinel returned on transport failure by `send_to_llm`. -/
def connectErrorSentinel : String := "ERROR: Could not connect to chat endpoint"

/-- Transport-level failures of `Client::send` (the `Err(_)` arm of the
`match` in `send_to_llm`): no HTTP reply was obtained at all. -/
inductive TransportError where
  | connectionRefused
  | timeout
  | dnsFailure
deriving DecidableEq

/-- An HTTP reply as observed by `send_to_llm`: `reqwest`'s `send()`
succeeds for every received reply regardless of status code, and
`Response::json()` either parses the body or fails with a message. -/
structure HttpReply where
  status : Nat
  body : Except String Json

/-- `send_to_llm` from the source, as a function of the transport outcome:
on `Err(_)` the sentinel; on `Ok(r)` the body is parsed
(`unwrap_or(Value::Null)` on parse failure) and
`v["response"].as_str().unwrap_or("")` is returned. -/
def send_to_llm (outcome : Except TransportError HttpReply) : String :=
  match outcome with
  | .error _ => connectErrorSentinel
  | .ok r =>
      let v : Json :=
        match r.body with
        | .ok j => j
        | .error _ => Json.null
      ((v.getField "response").asStr).getD ""

/-- Decoding of one array item inside `build_compliance_tests`: the body
of the `for item in arr` loop. -/
def decodeTestItem (item : Json) : ComplianceTest :=
  { name := ((item.getField "name").asStr).getD ""
    prompt := ((item.getField "prompt").asStr).getD ""
    expected_start := ((item.getField "expected_start").asStr).getD ""
    forbidden :=
      match (item.getField "forbidden").asArray with
      | some fa => fa.filterMap Json.asStr
      | none => [] }

/-- `build_compliance_tests` from the source, as a function of the
combined outcome of `fs::read_to_string` (outer `Except`) and
`serde_json::from_str` (inner `Except`); the file system and the JSON
text parser are external to the embedded code. -/
def build_compliance_tests
    (doc : Except String (Except String Json)) :
    Except String (List ComplianceTest) :=
  match doc with
  | .error e => .error ("Failed to read protocol JSON file: " ++ e)
  | .ok (.error e) => .error ("Invalid JSON format: " ++ e)
  | .ok (.ok v) =>
      .ok (match v.asArray with
           | some arr => arr.map decodeTestItem
           | none => [])

/-- The aggregate values computed and printed by
`print_compliance_score`.  The `f64` expression
`(passed as f64 / total as f64) * 100.0` is modelled by the exact
rational `percent` together with `percentFinite`: for `total == 0` the
code computes `0.0 / 0.0 = NaN` (non-finite), recorded as
`percentFinite = false`; for `total > 0` the rational value is the
real-number quotient the report approximates. -/
structure ComplianceReport where
  total : Nat
  passed : Nat
  failed : Nat
  percent : ℚ
  percentFinite : Bool
deriving DecidableEq

/-- `print_compliance_score` from the source, returning the values it
renders. -/
def print_compliance_score (results : List TestResult) : ComplianceReport :=
  let total := results.length
  let passed := (results.filter (fun r => r.passed)).length
  { total := total
    passed := passed
    failed := total - passed
    percent := ((passed : ℚ) / (total : ℚ)) * 100
    percentFinite := decide (total ≠ 0) }

/-- CLI argument handling at the top of `run_protocol_compliance`:
`protocol_base` defaults to `COMMUNICATION_PROTOCOL` and is overridden by
`--protocol <base>`. -/
def protocol_base (args : List String) : String :=
  if 2 < args.length ∧ args.getD 1 "" == "--protocol" then args.getD 2 ""
  else "COMMUNICATION_PROTOCOL"

/-- `format!("{}.md", protocol_base)`. -/
def md_path (args : List String) : String := protocol_base args ++ ".md"

/-- `format!("{}.json", protocol_base)`. -/
def json_path (args : List String) : String := protocol_base args ++ ".json"

/-- The effectful environment of one run, made explicit: the state of the
file system at the two derived paths, and the network transport.  The
transport oracle gives the outcome of the i-th endpoint call (call 0 is
the policy broadcast, call i+1 belongs to test i). -/
structure Env where
  mdExists : Bool
  jsonExists : Bool
  mdRead : Except String String
  jsonDoc : Except String (Except String Json)
  transport : Nat → Except TransportError HttpReply

/-- The `for test in &tests` loop of `run_protocol_compliance`: one
endpoint call and one evaluation per test, in order.  Returns the
results together with the prompts sent, threading the running call
number. -/
def run_tests (env : Env) : List ComplianceTest → Nat → List TestResult × List String
  | [], _ => ([], [])
  | test :: rest, callIdx =>
      let response := send_to_llm (env.transport callIdx)
      let result := evaluate_response test response
      let (rs, prompts) := run_tests env rest (callIdx + 1)
      (result :: rs, test.prompt :: prompts)

/-- `run_protocol_compliance` from the source.  The first component is
the `Result`: the collected `TestResult`s on success (the source keeps
them in `results` and passes them to `print_compliance_score`), or the
error string.  The second component is the trace of prompts sent to the
endpoint, in call order; its length is the number of endpoint calls
made.  The source validates that both files exist, reads the markdown,
sends the policy broadcast (response discarded), and only then parses
the JSON specification and iterates the tests. -/
def run_protocol_compliance (args : List String) (env : Env) :
    Except String (List TestResult) × List String :=
  if !env.mdExists then
    (.error ("ERROR: Missing protocol markdown file: " ++ md_path args), [])
  else if !env.jsonExists then
    (.error ("ERROR: Missing protocol JSON file: " ++ json_path args), [])
  else
    match env.mdRead with
    | .error e => (.error ("Failed to read protocol markdown file: " ++ e), [])
    | .ok protocol_content =>
        let init_prompt :=
          "You must enforce the following protocol:\n" ++ protocol_content
        match build_compliance_tests env.jsonDoc with
        | .error e => (.error e, [init_prompt])
        | .ok tests =>
            let rp := run_tests env tests 1
            (.ok rp.1, init_prompt :: rp.2)

/-! ### Spec-side definitions

The following definitions transcribe the specification's own wording (not
the source); they exist only to be compared with the source embeddings
above. -/

/-- The violations contributed by the forbidden-term scan of the
Response Evaluator, per the spec: for each entry in list order,
lower-case it and test substring containment against the (already
lower-cased) response; each match contributes one violation carrying the
original text. -/
def forbiddenViolations (response_lower : String) (fbs : List String) : List String :=
  (fbs.filter (fun fb => strContainsSub response_lower (strToLowercase fb))).map
    forbiddenViolationMsg

/-- The Response Evaluator algorithm as the spec words it: the prefix
violation fires only when `expectedStart` is non-empty and the response
does not begin with it; then the forbidden-term violations in list
order; passed iff no violation; the response stored verbatim. -/
def evaluate_response_spec (test : ComplianceTest) (response : String) : TestResult :=
  let prefixPart : List String :=
    if test.expected_start != "" && !(strStartsWith response test.expected_start) then
      ["Missing mandatory response format"]
    else []
  let vs := prefixPart ++ forbiddenViolations (strToLowercase response) test.forbidden
  { passed := vs.isEmpty, violations := vs, response := response }

/-- Key lookup on a JSON object, per the spec wording for the Loader
(`none` when the document node is not a record or lacks the key). -/
def json_lookup : Json → String → Option Json
  | .obj fields, key => (fields.find? (fun f => f.1 == key)).map (fun f => f.2)
  | _, _ => none

/-- One test record decoded as the (amended) Loader spec words it:
`name`, `prompt`, `expected_start` default to the empty string when the
key is missing or its value is not a string; `forbidden` defaults to the
empty list when missing or not a list, and when it is a list its string
elements are kept in order and non-string elements are dropped. -/
def decode_test_spec (item : Json) : ComplianceTest :=
  { name :=
      match json_lookup item "name" with
      | some (.str s) => s
      | _ => ""
    prompt :=
      match json_lookup item "prompt" with
      | some (.str s) => s
      | _ => ""
    expected_start :=
      match json_lookup item "expected_start" with
      | some (.str s) => s
      | _ => ""
    forbidden :=
      match json_lookup item "forbidden" with
      | some (.arr elems) =>
          elems.filterMap (fun v =>
            match v with
            | .str s => some s
            | _ => none)
      | _ => [] }

/-! ### Helper lemmas -/

/-- The forbidden-term loop of `evaluate_response`, characterized: it
appends exactly the `forbiddenViolations`, and clears `passed` iff some
term matched. -/
theorem eval_foldl_characterization (rl : String) (fbs : List String)
    (vs0 : List String) (p0 : Bool) :
    fbs.foldl
      (fun (acc : List String × Bool) fb =>
        if strContainsSub rl (strToLowercase fb) then
          (acc.1 ++ [forbiddenViolationMsg fb], false)
        else acc)
      (vs0, p0)
    = (vs0 ++ forbiddenViolations rl fbs,
       p0 && (forbiddenViolations rl fbs).isEmpty) := by
  induction fbs generalizing vs0 p0 with
  | nil => simp [forbiddenViolations]
  | cons fb rest ih =>
      by_cases h : strContainsSub rl (strToLowercase fb) = true
      · simp only [List.foldl_cons, h, if_pos, forbiddenViolations,
          List.filter_cons, List.map_cons]
        rw [ih]
        simp [forbiddenViolations]
      · have h' : strContainsSub rl (strToLowercase fb) = false := by
          revert h; cases strContainsSub rl (strToLowercase fb) <;> simp
        simp only [List.foldl_cons, h', if_neg, Bool.false_eq_true,
          not_false_iff, forbiddenViolations, List.filter_cons]
        rw [ih]
        simp [forbiddenViolations, h']

/-- `evaluate_response` in closed form: prefix violation (when the
response fails the prefix test) followed by the forbidden violations;
passed iff both checks are clean. -/
theorem evaluate_response_eq (test : ComplianceTest) (response : String) :
    evaluate_response test response =
      { passed := strStartsWith response test.expected_start
          && (forbiddenViolations (strToLowercase response) test.forbidden).isEmpty,
        violations :=
          (if strStartsWith response test.expected_start then []
           else ["Missing mandatory response format"])
          ++ forbiddenViolations (strToLowercase response) test.forbidden,
        response := response } := by
  unfold evaluate_response
  by_cases h : strStartsWith response test.expected_start = true
  · simp only [h, Bool.not_true, Bool.false_eq_true, if_neg, if_pos,
      Bool.true_and, ite_true, reduceIte]
    rw [eval_foldl_characterization]
    simp
  · have h' : strStartsWith response test.expected_start = false := by
      revert h; cases strStartsWith response test.expected_start <;> simp
    simp only [h', Bool.not_false, if_pos, ite_false, reduceIte]
    rw [eval_foldl_characterization]
    simp

/-- Every string has the empty string as a character-list prefix. -/
theorem strStartsWith_empty (s : String) : strStartsWith s "" = true := by
  simp [strStartsWith]

/-- A string distinct from the empty string compares `!=` to it. -/
theorem bne_empty_of_ne {s : String} (h : s ≠ "") : (s != "") = true := by
  simpa using h

/-! ### Claim theorems -/

/-- C1: `evaluate_response` follows the spec's evaluation algorithm
exactly: the prefix check (vacuous for an empty `expected_start`), then
the forbidden-term scan in list order with violations carrying the
original text, violations in detection order, `passed` iff no
violation, and the response stored verbatim. -/
theorem evaluate_response_matches_spec (test : ComplianceTest) (response : String) :
    evaluate_response test response = evaluate_response_spec test response := by
  rw [evaluate_response_eq]
  unfold evaluate_response_spec
  by_cases hs : strStartsWith response test.expected_start = true
  · simp [hs]
  · have h' : strStartsWith response test.expected_start = false := by
      revert hs; cases strStartsWith response test.expected_start <;> simp
    have hne : test.expected_start ≠ "" := by
      intro he
      rw [he, strStartsWith_empty] at h'
      exact Bool.noConfusion h'
    simp [h', bne_empty_of_ne hne]

/-- C2: for every test and response, the result's violations list is
empty iff its `passed` flag is true. -/
theorem violations_empty_iff_passed (test : ComplianceTest) (response : String) :
    (evaluate_response test response).violations = [] ↔
      (evaluate_response test response).passed = true := by
  rw [evaluate_response_eq]
  by_cases hs : strStartsWith response test.expected_start = true
  · simp [hs, List.isEmpty_iff]
  · have h' : strStartsWith response test.expected_start = false := by
      revert hs; cases strStartsWith response test.expected_start <;> simp
    simp [h']

/-- C10: a result of `evaluate_response` carries at most
`1 + length test.forbidden` violations: one from the prefix check and at
most one per forbidden entry. -/
theorem violations_length_bound (test : ComplianceTest) (response : String) :
    (evaluate_response test response).violations.length
      ≤ 1 + test.forbidden.length := by
  rw [evaluate_response_eq]
  have hpart :
      (forbiddenViolations (strToLowercase response) test.forbidden).length
        ≤ test.forbidden.length := by
    unfold forbiddenViolations
    rw [List.length_map]
    exact List.length_filter_le _ _
  by_cases hs : strStartsWith response test.expected_start = true
  · simp only [hs, if_pos, List.nil_append, ite_true, reduceIte]
    omega
  · have h' : strStartsWith response test.expected_start = false := by
      revert hs; cases strStartsWith response test.expected_start <;> simp
    simp only [h', List.length_append, List.length_cons, List.length_nil,
      ite_false, reduceIte, Bool.false_eq_true]
    omega

/-- C3 counterexample: an HTTP reply was received (here with status 500)
whose body fails to parse; the claim requires the failure sentinel, but
`send_to_llm` applies `unwrap_or(Value::Null)` to the parse failure and
returns the empty string. -/
theorem send_to_llm_body_failure_not_sentinel :
    send_to_llm (.ok ⟨500, .error "expected value at line 1"⟩) = ""
      ∧ ("" : String) ≠ connectErrorSentinel := by
  constructor
  · rfl
  · decide

/-- C3 (amended): the sentinel is returned exactly when `send()` itself
fails (connection refused, timeout, DNS failure); once any HTTP reply is
received — regardless of status code — a body that fails to parse or a
parsed body without a string `response` field yields the empty string,
and a present string field is returned as-is; the empty string is
distinct from the sentinel. -/
theorem send_to_llm_amended_spec (e : TransportError) (r : HttpReply) :
    send_to_llm (.error e) = connectErrorSentinel
    ∧ (∀ msg, r.body = .error msg → send_to_llm (.ok r) = "")
    ∧ (∀ j, r.body = .ok j → (j.getField "response").asStr = none →
        send_to_llm (.ok r) = "")
    ∧ (∀ j s, r.body = .ok j → (j.getField "response").asStr = some s →
        send_to_llm (.ok r) = s)
    ∧ ("" : String) ≠ connectErrorSentinel := by
  refine ⟨rfl, ?_, ?_, ?_, by decide⟩
  · intro msg hmsg
    simp [send_to_llm, hmsg, Json.getField, Json.asStr]
  · intro j hj hnone
    simp [send_to_llm, hj, hnone]
  · intro j s hj hsome
    simp [send_to_llm, hj, hsome]

/-- Witness for C3's amended theorem at concrete inputs. -/
theorem send_to_llm_amended_spec_witness :
    send_to_llm (.error .timeout) = connectErrorSentinel
    ∧ send_to_llm (.ok ⟨404, .error "syntax error"⟩) = ""
    ∧ send_to_llm (.ok ⟨200, .ok (Json.obj [("other", Json.str "x")])⟩) = ""
    ∧ send_to_llm (.ok ⟨200, .ok (Json.obj [("response", Json.str "hi")])⟩) = "hi" := by
  refine ⟨(send_to_llm_amended_spec .timeout ⟨404, .error "syntax error"⟩).1, ?_, ?_, ?_⟩
  · exact (send_to_llm_amended_spec .timeout ⟨404, .error "syntax error"⟩).2.1
      "syntax error" rfl
  · exact (send_to_llm_amended_spec .timeout
      ⟨200, .ok (Json.obj [("other", Json.str "x")])⟩).2.2.1
      (Json.obj [("other", Json.str "x")]) rfl rfl
  · exact (send_to_llm_amended_spec .timeout
      ⟨200, .ok (Json.obj [("response", Json.str "hi")])⟩).2.2.2.1
      (Json.obj [("response", Json.str "hi")]) "hi" rfl rfl

/-- C4 counterexample: a document that is valid JSON but whose top level
is not an array; the claim requires `MalformedInput`, but
`build_compliance_tests` succeeds with the empty test sequence. -/
theorem build_tests_non_array_succeeds :
    build_compliance_tests (.ok (.ok (Json.str "not an array")))
      = .ok ([] : List ComplianceTest) := rfl

/-- C4 (amended): `build_compliance_tests` fails exactly when the path
cannot be read or the document is not valid JSON; a document that parses
but whose top level is not an array succeeds with the empty sequence. -/
theorem build_tests_failure_iff (doc : Except String (Except String Json)) :
    ((∃ e, build_compliance_tests doc = .error e)
        ↔ (∃ e, doc = .error e) ∨ (∃ e, doc = .ok (.error e)))
    ∧ (∀ v, doc = .ok (.ok v) → v.asArray = none →
        build_compliance_tests doc = .ok []) := by
  constructor
  · match doc with
    | .error e => simp [build_compliance_tests]
    | .ok (.error e) => simp [build_compliance_tests]
    | .ok (.ok v) => simp [build_compliance_tests]
  · intro v hv hna
    subst hv
    simp [build_compliance_tests, hna]

/-- Witness for C4's amended theorem at concrete documents. -/
theorem build_tests_failure_iff_witness :
    (∃ e, build_compliance_tests (.error "no such file") = .error e)
    ∧ (∃ e, build_compliance_tests (.ok (.error "bad json")) = .error e)
    ∧ build_compliance_tests (.ok (.ok (Json.num 7))) = .ok [] := by
  refine ⟨?_, ?_, ?_⟩
  · exact (build_tests_failure_iff (.error "no such file")).1.mpr
      (Or.inl ⟨"no such file", rfl⟩)
  · exact (build_tests_failure_iff (.ok (.error "bad json"))).1.mpr
      (Or.inr ⟨"bad json", rfl⟩)
  · exact (build_tests_failure_iff (.ok (.ok (Json.num 7)))).2
      (Json.num 7) rfl rfl

/-- `serde`-style indexing agrees with spec-style lookup up to the
`Null` default. -/
theorem json_lookup_getField (item : Json) (k : String) :
    Json.getField item k = (json_lookup item k).getD Json.null := by
  cases item with
  | obj fields =>
      unfold Json.getField json_lookup
      cases hf : fields.find? (fun f => f.1 == k) <;> simp [hf]
  | null => rfl
  | bool b => rfl
  | num n => rfl
  | str s => rfl
  | arr elems => rfl

/-- String extraction with default, through the `Null` stand-in. -/
theorem opt_str_extract (o : Option Json) :
    ((o.getD Json.null).asStr).getD ""
      = (match o with
         | some (.str s) => s
         | _ => "") := by
  cases o with
  | none => rfl
  | some j => cases j <;> rfl

/-- List-of-strings extraction with default, through the `Null`
stand-in. -/
theorem opt_arr_extract (o : Option Json) :
    (match (o.getD Json.null).asArray with
     | some fa => fa.filterMap Json.asStr
     | none => [])
      = (match o with
         | some (.arr elems) =>
             elems.filterMap (fun v =>
               match v with
               | .str s => some s
               | _ => none)
         | _ => []) := by
  cases o with
  | none => rfl
  | some j => cases j <;> rfl

/-- The source's per-item decoding coincides with the spec's wording. -/
theorem decode_item_eq (item : Json) : decodeTestItem item = decode_test_spec item := by
  unfold decodeTestItem decode_test_spec
  rw [json_lookup_getField item "name", json_lookup_getField item "prompt",
    json_lookup_getField item "expected_start", json_lookup_getField item "forbidden"]
  simp only [ComplianceTest.mk.injEq]
  exact ⟨opt_str_extract _, opt_str_extract _, opt_arr_extract _, opt_str_extract _⟩

/-- C5 counterexample: a `forbidden` value that is a list but not a
list-of-strings; the claim requires it to decode to the empty list, but
the source keeps the string elements (here `"x"`). -/
theorem build_tests_mixed_forbidden_kept :
    build_compliance_tests (.ok (.ok (Json.arr
        [Json.obj [("forbidden", Json.arr [Json.num 1, Json.str "x"])]])))
      = .ok [⟨"", "", ["x"], ""⟩]
    ∧ (["x"] : List String) ≠ [] := by
  exact ⟨rfl, by decide⟩

/-- C5 (amended): for an array-rooted document,
`build_compliance_tests` decodes each record permissively —
`name`, `prompt`, `expected_start` default to the empty string when the
key is missing or not a string; `forbidden` defaults to the empty list
when missing or not a list, and a list keeps its string elements in
order while dropping non-strings — preserving document order; the empty
array yields the empty sequence, not an error. -/
theorem build_tests_array_decode (items : List Json) :
    build_compliance_tests (.ok (.ok (Json.arr items)))
        = .ok (items.map decode_test_spec)
    ∧ (items = [] →
        build_compliance_tests (.ok (.ok (Json.arr items))) = .ok []) := by
  have hfun : decodeTestItem = decode_test_spec := funext decode_item_eq
  have h1 : build_compliance_tests (.ok (.ok (Json.arr items)))
      = .ok (items.map decode_test_spec) := by
    rw [← hfun]; rfl
  exact ⟨h1, fun h => by rw [h] at h1 ⊢; exact h1⟩

/-- Witness for C5's amended theorem: the empty array decodes to the
empty sequence and a concrete record decodes as described. -/
theorem build_tests_array_decode_witness :
    build_compliance_tests (.ok (.ok (Json.arr []))) = .ok []
    ∧ build_compliance_tests (.ok (.ok (Json.arr [Json.obj [("prompt", Json.str "p1")]])))
        = .ok ((Json.obj [("prompt", Json.str "p1")] :: []).map decode_test_spec) := by
  exact ⟨(build_tests_array_decode []).2 rfl,
    (build_tests_array_decode [Json.obj [("prompt", Json.str "p1")]]).1⟩

/-- The per-test loop produces one result per test. -/
theorem run_tests_length (env : Env) (tests : List ComplianceTest) (k : Nat) :
    (run_tests env tests k).1.length = tests.length := by
  induction tests generalizing k with
  | nil => rfl
  | cons t rest ih => simp [run_tests, ih]

/-- The per-test loop sends exactly the test prompts, in order. -/
theorem run_tests_prompts (env : Env) (tests : List ComplianceTest) (k : Nat) :
    (run_tests env tests k).2 = tests.map (fun t => t.prompt) := by
  induction tests generalizing k with
  | nil => rfl
  | cons t rest ih => simp [run_tests, ih]

/-- The i-th result of the per-test loop evaluates the i-th test against
the reply of call `k + i`. -/
theorem run_tests_get? (env : Env) (tests : List ComplianceTest) (k i : Nat)
    (fb : ComplianceTest) (h : tests.get? i = some fb) :
    (run_tests env tests k).1.get? i
      = some (evaluate_response fb (send_to_llm (env.transport (k + i)))) := by
  induction tests generalizing k i with
  | nil => simp at h
  | cons t rest ih =>
      cases i with
      | zero =>
          simp only [List.get?_cons_zero, Option.some.injEq] at h
          subst h
          simp [run_tests]
      | succ j =>
          simp only [List.get?_cons_succ] at h
          have := ih (k + 1) j h
          simpa [run_tests, Nat.add_assoc, Nat.add_comm 1 j] using this

/-- C6 counterexample: both documents exist and the policy is readable,
but the specification document is not valid JSON.  The claim requires
zero endpoint calls for `MalformedInput`; the source sends the policy
broadcast before parsing the specification, so exactly one endpoint
call has already been made when the run aborts. -/
theorem run_malformed_spec_one_call :
    (run_protocol_compliance []
        ⟨true, true, .ok "P", .ok (.error "bad"), fun _ => .error .timeout⟩).1
      = .error "Invalid JSON format: bad"
    ∧ (run_protocol_compliance []
        ⟨true, true, .ok "P", .ok (.error "bad"), fun _ => .error .timeout⟩).2.length
      = 1 := by
  exact ⟨rfl, rfl⟩

/-- C6 (amended): the three file-level precondition failures (missing
policy document, missing specification document, unreadable policy
document) abort the run before any endpoint call, returning no partial
results; a specification document that exists but cannot be parsed
aborts the run with no partial results after exactly one endpoint call,
the policy broadcast. -/
theorem run_precondition_errors (args : List String) (env : Env) :
    (env.mdExists = false →
      run_protocol_compliance args env
        = (.error ("ERROR: Missing protocol markdown file: " ++ md_path args), []))
    ∧ (env.mdExists = true → env.jsonExists = false →
      run_protocol_compliance args env
        = (.error ("ERROR: Missing protocol JSON file: " ++ json_path args), []))
    ∧ (∀ e, env.mdExists = true → env.jsonExists = true → env.mdRead = .error e →
      run_protocol_compliance args env
        = (.error ("Failed to read protocol markdown file: " ++ e), []))
    ∧ (∀ c e, env.mdExists = true → env.jsonExists = true → env.mdRead = .ok c →
      build_compliance_tests env.jsonDoc = .error e →
      run_protocol_compliance args env
        = (.error e, ["You must enforce the following protocol:\n" ++ c])) := by
  refine ⟨?_, ?_, ?_, ?_⟩
  · intro h1
    simp [run_protocol_compliance, h1]
  · intro h1 h2
    simp [run_protocol_compliance, h1, h2]
  · intro e h1 h2 h3
    simp [run_protocol_compliance, h1, h2, h3]
  · intro c e h1 h2 h3 h4
    simp [run_protocol_compliance, h1, h2, h3, h4]

/-- Witness for C6's amended theorem: each of the four abort shapes at a
concrete environment. -/
theorem run_precondition_errors_witness :
    run_protocol_compliance []
        ⟨false, true, .error "e", .ok (.ok Json.null), fun _ => .error .timeout⟩
      = (.error "ERROR: Missing protocol markdown file: COMMUNICATION_PROTOCOL.md", [])
    ∧ run_protocol_compliance []
        ⟨true, false, .error "e", .ok (.ok Json.null), fun _ => .error .timeout⟩
      = (.error "ERROR: Missing protocol JSON file: COMMUNICATION_PROTOCOL.json", [])
    ∧ run_protocol_compliance []
        ⟨true, true, .error "denied", .ok (.ok Json.null), fun _ => .error .timeout⟩
      = (.error "Failed to read protocol markdown file: denied", [])
    ∧ run_protocol_compliance []
        ⟨true, true, .ok "P", .ok (.error "bad"), fun _ => .error .timeout⟩
      = (.error "Invalid JSON format: bad",
         ["You must enforce the following protocol:\nP"]) := by
  refine ⟨?_, ?_, ?_, ?_⟩
  · exact (run_precondition_errors []
      ⟨false, true, .error "e", .ok (.ok Json.null), fun _ => .error .timeout⟩).1 rfl
  · exact (run_precondition_errors []
      ⟨true, false, .error "e", .ok (.ok Json.null), fun _ => .error .timeout⟩).2.1 rfl rfl
  · exact (run_precondition_errors []
      ⟨true, true, .error "denied", .ok (.ok Json.null), fun _ => .error .timeout⟩).2.2.1
      "denied" rfl rfl rfl
  · exact (run_precondition_errors []
      ⟨true, true, .ok "P", .ok (.error "bad"), fun _ => .error .timeout⟩).2.2.2
      "P" "Invalid JSON format: bad" rfl rfl rfl rfl

/-- C7: when the policy document is missing and the specification
document exists, the run fails with the missing-policy error and makes
zero endpoint calls. -/
theorem run_missing_policy_zero_calls (args : List String) (env : Env)
    (h1 : env.mdExists = false) (_h2 : env.jsonExists = true) :
    run_protocol_compliance args env
      = (.error ("ERROR: Missing protocol markdown file: " ++ md_path args), [])
    ∧ (run_protocol_compliance args env).2.length = 0 := by
  have h : run_protocol_compliance args env
      = (.error ("ERROR: Missing protocol markdown file: " ++ md_path args), []) := by
    simp [run_protocol_compliance, h1]
  exact ⟨h, by rw [h]; rfl⟩

/-- Witness for C7 at a concrete environment. -/
theorem run_missing_policy_zero_calls_witness :
    run_protocol_compliance []
        ⟨false, true, .error "e", .ok (.ok (Json.arr [])), fun _ => .error .timeout⟩
      = (.error "ERROR: Missing protocol markdown file: COMMUNICATION_PROTOCOL.md", [])
    ∧ (run_protocol_compliance []
        ⟨false, true, .error "e", .ok (.ok (Json.arr [])), fun _ => .error .timeout⟩).2.length
      = 0 := by
  exact run_missing_policy_zero_calls []
    ⟨false, true, .error "e", .ok (.ok (Json.arr [])), fun _ => .error .timeout⟩ rfl rfl

/-- C8: with both documents present and readable and a specification
decoding to `tests`, the run makes `1 + length tests` endpoint calls —
the policy broadcast (whose reply is not consulted) followed by one call
per test in specification order — and returns one result per test in
the same order, the i-th result evaluating the i-th test against the
reply of call `i + 1`. -/
theorem run_success_call_count (args : List String) (env : Env) (c : String)
    (tests : List ComplianceTest)
    (h1 : env.mdExists = true) (h2 : env.jsonExists = true)
    (h3 : env.mdRead = .ok c)
    (h4 : build_compliance_tests env.jsonDoc = .ok tests) :
    ∃ results, (run_protocol_compliance args env).1 = .ok results
      ∧ results.length = tests.length
      ∧ (run_protocol_compliance args env).2.length = 1 + tests.length
      ∧ (run_protocol_compliance args env).2
          = ("You must enforce the following protocol:\n" ++ c)
            :: tests.map (fun t => t.prompt)
      ∧ ∀ i fb, tests.get? i = some fb →
          results.get? i
            = some (evaluate_response fb (send_to_llm (env.transport (i + 1)))) := by
  have hrun : run_protocol_compliance args env
      = (.ok (run_tests env tests 1).1,
         ("You must enforce the following protocol:\n" ++ c)
           :: (run_tests env tests 1).2) := by
    simp [run_protocol_compliance, h1, h2, h3, h4]
  refine ⟨(run_tests env tests 1).1, ?_, run_tests_length env tests 1, ?_, ?_, ?_⟩
  · rw [hrun]
  · rw [hrun]
    simp [run_tests_prompts, Nat.add_comm]
  · rw [hrun, run_tests_prompts]
  · intro i fb hfb
    have := run_tests_get? env tests 1 i fb hfb
    simpa [Nat.add_comm 1 i] using this

/-- Witness for C8: a one-element specification issues exactly two
endpoint calls and returns exactly one result. -/
theorem run_success_call_count_witness :
    ∃ results,
      (run_protocol_compliance []
          ⟨true, true, .ok "P",
           .ok (.ok (Json.arr [Json.obj
             [("name", Json.str "t1"), ("prompt", Json.str "p1"),
              ("expected_start", Json.str "e1"), ("forbidden", Json.arr [])]])),
           fun _ => .error .timeout⟩).1 = .ok results
      ∧ results.length = 1
      ∧ (run_protocol_compliance []
          ⟨true, true, .ok "P",
           .ok (.ok (Json.arr [Json.obj
             [("name", Json.str "t1"), ("prompt", Json.str "p1"),
              ("expected_start", Json.str "e1"), ("forbidden", Json.arr [])]])),
           fun _ => .error .timeout⟩).2.length = 2 := by
  obtain ⟨results, hr, hlen, hcalls, -, -⟩ :=
    run_success_call_count []
      ⟨true, true, .ok "P",
       .ok (.ok (Json.arr [Json.obj
         [("name", Json.str "t1"), ("prompt", Json.str "p1"),
          ("expected_start", Json.str "e1"), ("forbidden", Json.arr [])]])),
       fun _ => .error .timeout⟩
      "P" [⟨"t1", "p1", [], "e1"⟩] rfl rfl rfl rfl
  exact ⟨results, hr, hlen, hcalls⟩

/-- C9: the reported aggregates are `total = length`, `passed = count of
passing results`, `failed = total - passed`, and
`percent = (passed / total) * 100` under exact (real-number) division;
the stated concrete batches evaluate as the claim lists them, and the
empty batch is reported with a non-finite percentage. -/
theorem print_compliance_score_report (results : List TestResult) :
    (print_compliance_score results).total = results.length
    ∧ (print_compliance_score results).passed
        = (results.filter (fun r => r.passed)).length
    ∧ (print_compliance_score results).failed
        = results.length - (results.filter (fun r => r.passed)).length
    ∧ (results ≠ [] →
        (print_compliance_score results).percent
          = (((results.filter (fun r => r.passed)).length : ℚ)
              / (results.length : ℚ)) * 100)
    ∧ ((print_compliance_score results).percentFinite = false ↔ results = [])
    ∧ (print_compliance_score [⟨true, [], ""⟩, ⟨true, [], ""⟩, ⟨true, [], ""⟩]).passed = 3
    ∧ (print_compliance_score [⟨true, [], ""⟩, ⟨true, [], ""⟩, ⟨true, [], ""⟩]).failed = 0
    ∧ (print_compliance_score [⟨true, [], ""⟩, ⟨true, [], ""⟩, ⟨true, [], ""⟩]).percent = 100
    ∧ (print_compliance_score
        [⟨false, ["v"], ""⟩, ⟨false, ["v"], ""⟩, ⟨false, ["v"], ""⟩]).passed = 0
    ∧ (print_compliance_score
        [⟨false, ["v"], ""⟩, ⟨false, ["v"], ""⟩, ⟨false, ["v"], ""⟩]).failed = 3
    ∧ (print_compliance_score
        [⟨false, ["v"], ""⟩, ⟨false, ["v"], ""⟩, ⟨false, ["v"], ""⟩]).percent = 0
    ∧ (print_compliance_score [⟨true, [], ""⟩, ⟨false, ["v"], ""⟩]).percent = 50
    ∧ (print_compliance_score ([] : List TestResult)).percentFinite = false := by
  refine ⟨rfl, rfl, rfl, ?_, ?_, ?_, ?_, ?_, ?_, ?_, ?_, ?_, ?_⟩
  · intro _
    rfl
  · constructor
    · intro h
      simp only [print_compliance_score, decide_eq_false_iff_not, not_not] at h
      exact List.length_eq_zero.mp h
    · intro h
      subst h
      rfl
  · rfl
  · rfl
  · norm_num [print_compliance_score, List.filter]
  · rfl
  · rfl
  · norm_num [print_compliance_score, List.filter]
  · norm_num [print_compliance_score, List.filter]
  · rfl

/-- Witness for C9 at a concrete non-empty batch: the percentage formula
holds and the batch is reported as finite. -/
theorem print_compliance_score_report_witness :
    (print_compliance_score [⟨true, [], ""⟩]).percent
      = (((([⟨true, [], ""⟩] : List TestResult).filter
            (fun r => r.passed)).length : ℚ)
          / (([⟨true, [], ""⟩] : List TestResult).length : ℚ)) * 100 := by
  exact (print_compliance_score_report [⟨true, [], ""⟩]).2.2.2.1 (by simp)

end ProtocolCompliance
